import Mathlib

/-!
Shallow embedding of `watchdog.py`, a file-integrity monitor: an event
translator turning filesystem change notifications into log lines, a path
resolver for the watch roots, a rotation routine (`compress_log`) that
archives and truncates the live log, a retention sweeper
(`delete_old_logs`), and the supervisor loop in `main` driving rotation and
retention on one timer.
-/

namespace Watchdog

/-! ## Configuration constants (watchdog.py lines 11-22) -/

def LOG_FILE : String := "/var/log/file_changes.log"

def LOG_DIR : String := "/var/log"

/-- Base name of the live log file, i.e. the last component of `LOG_FILE`;
`delete_old_logs` selects directory entries whose names start with it. -/
def log_basename : String := "file_changes.log"

def COMPRESS_INTERVAL : Nat := 3600

def LOG_RETENTION_DAYS : Nat := 7

def MODIFIED_ICON : String := "🔄"

def CREATED_ICON : String := "✨"

def DELETED_ICON : String := "❌"

def MOVED_ICON : String := "🔀"

/-! ## Event model (watchdog.py lines 24-41, class FileMonitorHandler)

A raw filesystem notification carries a kind (which handler method fires),
a source path, a destination path (meaningful for moves only) and a
directory flag.  Each handler emits the message passed to `logging.info`,
or nothing when the event concerns a directory. -/

inductive EventKind where
  | created
  | modified
  | deleted
  | moved
  deriving DecidableEq

structure ChangeEvent where
  src_path : String
  dest_path : String
  is_directory : Bool
  deriving DecidableEq

def on_modified (e : ChangeEvent) : Option String :=
  if e.is_directory then none
  else some (MODIFIED_ICON ++ " Modified: " ++ e.src_path)

def on_created (e : ChangeEvent) : Option String :=
  if e.is_directory then none
  else some (CREATED_ICON ++ " Created: " ++ e.src_path)

def on_deleted (e : ChangeEvent) : Option String :=
  if e.is_directory then none
  else some (DELETED_ICON ++ " Deleted: " ++ e.src_path)

def on_moved (e : ChangeEvent) : Option String :=
  if e.is_directory then none
  else some (MOVED_ICON ++ " Moved: " ++ e.src_path ++ " to " ++ e.dest_path)

/-- Dispatch of one raw event to the handler method of `FileMonitorHandler`
for its kind. -/
def handle_event : EventKind → ChangeEvent → Option String
  | .created, e => on_created e
  | .modified, e => on_modified e
  | .deleted, e => on_deleted e
  | .moved, e => on_moved e

/-- Icon table of the spec: the fixed icon/tag for each event kind. -/
def event_icon : EventKind → String
  | .created => CREATED_ICON
  | .modified => MODIFIED_ICON
  | .deleted => DELETED_ICON
  | .moved => MOVED_ICON

/-- Name of each event kind as it appears in a log record. -/
def kind_name : EventKind → String
  | .created => "Created"
  | .modified => "Modified"
  | .deleted => "Deleted"
  | .moved => "Moved"

/-- Record format written down in the spec (§6): icon/tag, kind name, colon,
then the path — for moves, source and destination joined by " to ". -/
def spec_record (k : EventKind) (e : ChangeEvent) : String :=
  event_icon k ++ " " ++ kind_name k ++ ": " ++
    (match k with
      | .moved => e.src_path ++ " to " ++ e.dest_path
      | _ => e.src_path)

/-! ## Path resolver (watchdog.py lines 43-46, get_existing_paths)

The existence check `os.path.exists` is the filesystem capability; it is
passed in as a boolean predicate. -/

def candidate_paths : List String := ["/home", "/etc", "/root", "/usr", "/opt"]

def get_existing_paths (path_exists : String → Bool) : List String :=
  candidate_paths.filter path_exists

/-! ## Timestamps (watchdog.py line 50)

`datetime.now().strftime("%Y%m%d_%H%M%S")`: every numeric field is printed
zero-padded, the date block and the time block joined by an underscore. -/

structure DateTime where
  year : Nat
  month : Nat
  day : Nat
  hour : Nat
  minute : Nat
  second : Nat
  deriving DecidableEq

def pad2 (n : Nat) : String :=
  if n < 10 then "0" ++ toString n else toString n

def pad4 (n : Nat) : String :=
  if n < 10 then "000" ++ toString n
  else if n < 100 then "00" ++ toString n
  else if n < 1000 then "0" ++ toString n
  else toString n

/-- `strftime("%Y%m%d_%H%M%S")` applied to a wall-clock instant. -/
def strftime_ts (d : DateTime) : String :=
  pad4 d.year ++ pad2 d.month ++ pad2 d.day ++ "_" ++
    pad2 d.hour ++ pad2 d.minute ++ pad2 d.second

/-! ## Rotation (watchdog.py lines 48-60, compress_log)

The state a rotation touches: the lines of the live log and the archives
present in the log directory (an archive is its full path paired with the
uncompressed content it holds — gzip round-trips content, so the model
stores the content itself).  The three fallible I/O steps (reading the
live log, writing the gzip archive, truncating) are driven by failure
flags; a raised exception is the returned `RotateError`, and the state in
which it leaves the filesystem is returned alongside. -/

structure LogState where
  live : List String
  archives : List (String × List String)
  deriving DecidableEq

inductive RotateError where
  | read_error
  | write_error
  | truncate_error
  deriving DecidableEq

/-- `f"{LOG_FILE}_{timestamp}.gz"` (line 51). -/
def archive_name_at (timestamp : String) : String :=
  LOG_FILE ++ "_" ++ timestamp ++ ".gz"

/-- `f"Log compressed and saved as: {compressed_log}"` (line 60). -/
def rotation_notice (compressed_log : String) : String :=
  "Log compressed and saved as: " ++ compressed_log

def compress_log (now : DateTime) (fail_read fail_write fail_truncate : Bool)
    (s : LogState) : LogState × Option RotateError :=
  let compressed_log := archive_name_at (strftime_ts now)
  if fail_read then (s, some RotateError.read_error)
  else if fail_write then (s, some RotateError.write_error)
  else
    let s1 : LogState := { s with archives := s.archives ++ [(compressed_log, s.live)] }
    if fail_truncate then (s1, some RotateError.truncate_error)
    else
      let s2 : LogState := { s1 with live := [] }
      ({ s2 with live := s2.live ++ [rotation_notice compressed_log] }, none)

/-! ## Retention (watchdog.py lines 62-72, delete_old_logs)

A directory entry of `/var/log` as the sweep sees it: name, mtime
(seconds), and whether it is a regular file.  Python's
`filename.startswith(p)` is the prefix test on characters.  `os.remove`
may raise; `remove_fails` names the entries whose removal raises, and the
exception aborts the sweep (there is no handler inside the loop), so the
run returns the paths removed so far and the path whose removal raised. -/

structure DirEntry where
  name : String
  mtime : Int
  is_file : Bool
  deriving DecidableEq

def starts_with (s p : String) : Bool := p.data.isPrefixOf s.data

/-- `os.path.join('/var/log', filename)` (line 67). -/
def file_path_of (name : String) : String := LOG_DIR ++ "/" ++ name

/-- The test at line 66: the entry name starts with the live log's base name. -/
def matches_log_family (e : DirEntry) : Bool := starts_with e.name log_basename

/-- The age test at line 70: `current_time - file_mod_time > LOG_RETENTION_DAYS * 86400`. -/
def is_stale (current_time : Int) (e : DirEntry) : Bool :=
  current_time - e.mtime > (LOG_RETENTION_DAYS : Int) * 86400

/-- The conjunction of the three nested tests guarding `os.remove`. -/
def should_delete (current_time : Int) (e : DirEntry) : Bool :=
  matches_log_family e && e.is_file && is_stale current_time e

def delete_old_logs_run (current_time : Int) (remove_fails : String → Bool) :
    List DirEntry → List String × Option String
  | [] => ([], none)
  | e :: rest =>
    if should_delete current_time e then
      if remove_fails e.name then ([], some (file_path_of e.name))
      else
        let r := delete_old_logs_run current_time remove_fails rest
        (file_path_of e.name :: r.1, r.2)
    else delete_old_logs_run current_time remove_fails rest

/-- One sweep in which every `os.remove` succeeds: the paths it deletes. -/
def delete_old_logs (current_time : Int) (listing : List DirEntry) : List String :=
  (delete_old_logs_run current_time (fun _ => false) listing).1

/-! ## The supervisor loop (watchdog.py lines 86-97)

Each iteration of `while True` runs, inside one `try`:
`compress_log()`, then `time.sleep(COMPRESS_INTERVAL)`, then
`delete_old_logs()`; `except Exception` logs the error and the loop
continues.  An iteration is summarised by its outcome and unfolded into
the visible steps it performs, in order. -/

inductive Step where
  | rotate_ok
  | rotate_fail
  | sleep
  | sweep_ok
  | sweep_fail
  | log_error
  deriving DecidableEq

inductive CycleOutcome where
  | ok
  | rotation_fails
  | sweep_fails
  deriving DecidableEq

/-- Steps one loop iteration performs: a raised exception skips straight
to the `except Exception` handler, which logs and falls through to the
next iteration. -/
def cycle_trace : CycleOutcome → List Step
  | .ok => [Step.rotate_ok, Step.sleep, Step.sweep_ok]
  | .rotation_fails => [Step.rotate_fail, Step.log_error]
  | .sweep_fails => [Step.rotate_ok, Step.sleep, Step.sweep_fail, Step.log_error]

def loop_trace : List CycleOutcome → List Step
  | [] => []
  | c :: cs => cycle_trace c ++ loop_trace cs

/-! ## Appends racing one rotation

The observer thread appends records through `logging.info` (atomic: the
logging module serialises individual writes) while the main thread runs
`compress_log`, whose steps are: read the live log, write the archive,
truncate (line 58), append the notice.  Nothing in the code orders an
append against those steps, so a schedule is an arbitrary interleaving of
append actions with the four rotation sub-steps. -/

inductive Action where
  | append (r : String)
  | rot_read
  | rot_write
  | rot_truncate
  | rot_notice
  deriving DecidableEq

structure ConcState where
  live : List String
  snap : List String
  archive : Option (List String)
  deriving DecidableEq

def init_state : ConcState := ⟨[], [], none⟩

def conc_step (s : ConcState) : Action → ConcState
  | .append r => { s with live := s.live ++ [r] }
  | .rot_read => { s with snap := s.live }
  | .rot_write => { s with archive := some s.snap }
  | .rot_truncate => { s with live := [] }
  | .rot_notice => { s with live := s.live ++ [rotation_notice LOG_FILE] }

def exec_schedule (acts : List Action) : ConcState :=
  acts.foldl conc_step init_state

/-- How many times record `r` survives, counted across the post-rotation
live log and the archive. -/
def record_count (r : String) (s : ConcState) : Nat :=
  s.live.count r + (s.archive.getD []).count r

/-! ## Concrete inputs used by the witnesses and counterexamples -/

/-- A burst record. -/
def recA : String := "record A"

/-- A second burst record. -/
def recB : String := "record B"

/-- A schedule of two appends around one rotation in which the second
append lands after the snapshot has been read and written but before the
truncate. -/
def lossy_schedule : List Action :=
  [Action.append recA, Action.rot_read, Action.rot_write, Action.append recB,
    Action.rot_truncate, Action.rot_notice]

/-- A wall-clock "now" for retention examples, in seconds. -/
def tW : Int := 1000000000

/-- An archive whose mtime is 8 days before `tW`. -/
def arch_old : DirEntry := ⟨"file_changes.log_20250901_000000.gz", 999308800, true⟩

/-- An archive whose mtime is 6 days before `tW`. -/
def arch_young : DirEntry := ⟨"file_changes.log_20250906_000000.gz", 999481600, true⟩

def listing_w : List DirEntry := [arch_old, arch_young]

/-- A "now" for the abort counterexample: 8 days, in seconds. -/
def cex_time : Int := 8 * 86400

/-- A stale archive (mtime 0, so 8 days old at `cex_time`) whose removal
will raise. -/
def cex_old_a : DirEntry := ⟨"file_changes.log_a.gz", 0, true⟩

/-- A second stale archive, listed after the failing one. -/
def cex_old_b : DirEntry := ⟨"file_changes.log_b.gz", 0, true⟩

/-- A fresh archive, 2 days old at `cex_time`. -/
def cex_young : DirEntry := ⟨"file_changes.log_c.gz", 172800, true⟩

/-- Removal raises exactly for `cex_old_a`. -/
def fails_on_a : String → Bool := fun n => n == "file_changes.log_a.gz"

def sample_dt : DateTime := ⟨2025, 1, 1, 12, 0, 0⟩

def line_one : String := "some earlier record"

/-- A live log holding one record, no archives yet. -/
def sample_state : LogState := ⟨[line_one], []⟩

/-! ## Helper lemmas -/

/-- A failure-free sweep deletes exactly the listing entries passing
`should_delete`, in listing order. -/
theorem delete_old_logs_eq (t : Int) (l : List DirEntry) :
    delete_old_logs t l =
      (l.filter (fun e => should_delete t e)).map (fun e => file_path_of e.name) := by
  induction l with
  | nil => rfl
  | cons e rest ih =>
    simp only [delete_old_logs, delete_old_logs_run] at ih ⊢
    by_cases h : should_delete t e = true
    · simp [h, List.filter_cons, ih]
    · simp [h, List.filter_cons, ih]

/-- Joining distinct names onto the log directory yields distinct paths. -/
theorem file_path_of_inj (a b : String) (h : file_path_of a = file_path_of b) :
    a = b := by
  have hdata := congrArg String.data h
  simp only [file_path_of, String.data_append] at hdata
  exact String.ext (List.append_cancel_left hdata)

/-! ## C7 — the event translator -/

/-- C7: a change event whose directory flag is set produces no log record;
one whose flag is clear produces exactly one record, carrying the fixed
icon/tag of its kind, and a move record carries both the source and the
destination path (the spec's record format). -/
theorem event_translator_correct (k : EventKind) (e : ChangeEvent) :
    handle_event k e = if e.is_directory then none else some (spec_record k e) := by
  cases k <;>
    simp [handle_event, on_created, on_modified, on_deleted, on_moved, spec_record,
      event_icon, kind_name, String.append_assoc]

/-! ## C8 — the path resolver -/

/-- C8: whatever the filesystem reports, the path resolver returns exactly
the subsequence of the candidate list whose members exist: the output is a
sublist of the candidates (order preserved) and a path is in the output
iff it is a candidate that exists; being a total function, it raises
nothing for non-existent candidates. -/
theorem path_resolver_correct (path_exists : String → Bool) :
    (get_existing_paths path_exists).Sublist candidate_paths ∧
    ∀ p, p ∈ get_existing_paths path_exists ↔
      p ∈ candidate_paths ∧ path_exists p = true := by
  refine ⟨List.filter_sublist _, ?_⟩
  intro p
  simp [get_existing_paths, List.mem_filter]

/-! ## C5 — the retention predicate -/

/-- C5: a regular file of the log directory whose name matches the live
log's naming family is deleted by one sweep iff its mtime is strictly
older than now minus the retention window of 7 days = 604800 seconds. -/
theorem retention_deletes_iff (t : Int) (l : List DirEntry) (e : DirEntry)
    (hnd : (l.map DirEntry.name).Nodup) (he : e ∈ l)
    (hm : matches_log_family e = true) (hf : e.is_file = true) :
    file_path_of e.name ∈ delete_old_logs t l ↔ t - e.mtime > (604800 : Int) := by
  rw [delete_old_logs_eq]
  simp only [List.mem_map, List.mem_filter]
  constructor
  · rintro ⟨e', ⟨he', hd'⟩, hpath⟩
    have hname : e'.name = e.name := file_path_of_inj _ _ hpath
    have heq : e' = e := List.inj_on_of_nodup_map hnd he' he hname
    subst heq
    simp only [should_delete, Bool.and_eq_true] at hd'
    have hs := hd'.2
    simp only [is_stale, LOG_RETENTION_DAYS, decide_eq_true_eq] at hs
    omega
  · intro hage
    refine ⟨e, ⟨he, ?_⟩, rfl⟩
    have hst : is_stale t e = true := by
      simp only [is_stale, LOG_RETENTION_DAYS, decide_eq_true_eq]
      omega
    simp [should_delete, hm, hf, hst]

/-- C5 witness: at `tW`, the 8-day-old archive is deleted and the
6-day-old one is retained. -/
theorem retention_deletes_iff_witness :
    file_path_of arch_old.name ∈ delete_old_logs tW listing_w ∧
    file_path_of arch_young.name ∉ delete_old_logs tW listing_w := by
  constructor
  · exact (retention_deletes_iff tW listing_w arch_old (by decide) (by decide)
      (by decide) (by decide)).mpr (by decide)
  · intro h
    exact absurd ((retention_deletes_iff tW listing_w arch_young (by decide) (by decide)
      (by decide) (by decide)).mp h) (by decide)

/-! ## C9 — the live log matches its own naming family -/

/-- C9: the sweep's selection test is a prefix match against the live
log's base name, which the live log itself passes, so a sweep run over a
listing containing a live log older than the window deletes the live log
file itself. -/
theorem live_log_swept (t m : Int) (l : List DirEntry)
    (he : (⟨log_basename, m, true⟩ : DirEntry) ∈ l)
    (hage : t - m > (604800 : Int)) :
    matches_log_family ⟨log_basename, m, true⟩ = true ∧
    file_path_of log_basename ∈ delete_old_logs t l := by
  have hmatch : matches_log_family ⟨log_basename, m, true⟩ = true := by
    show starts_with log_basename log_basename = true
    decide
  refine ⟨hmatch, ?_⟩
  rw [delete_old_logs_eq]
  have hst : is_stale t ⟨log_basename, m, true⟩ = true := by
    simp only [is_stale, LOG_RETENTION_DAYS, decide_eq_true_eq]
    omega
  have hsd : should_delete t ⟨log_basename, m, true⟩ = true := by
    simp [should_delete, hmatch, hst]
  exact List.mem_map.mpr ⟨⟨log_basename, m, true⟩, List.mem_filter.mpr ⟨he, hsd⟩, rfl⟩

/-- C9 witness: a live log 9 days old at `tW` is deleted by the sweep. -/
theorem live_log_swept_witness :
    matches_log_family ⟨log_basename, 999222400, true⟩ = true ∧
    file_path_of log_basename ∈
      delete_old_logs tW [⟨log_basename, 999222400, true⟩, arch_young] :=
  live_log_swept tW 999222400 [⟨log_basename, 999222400, true⟩, arch_young]
    (by decide) (by decide)

/-! ## C10 — failed compression leaves the live log untouched -/

/-- C10: when reading the live log or writing the compressed archive
raises during a rotation, `compress_log` propagates the error and the
truncate step never runs, so the live log's contents are exactly what they
were before the failed rotation. -/
theorem failed_rotation_preserves_live (now : DateTime)
    (fail_read fail_write fail_truncate : Bool) (s : LogState)
    (h : fail_read = true ∨ fail_write = true) :
    (compress_log now fail_read fail_write fail_truncate s).1.live = s.live ∧
    (compress_log now fail_read fail_write fail_truncate s).2 ≠ none := by
  cases fail_read <;> cases fail_write <;> simp_all [compress_log]

/-- C10 witness: a read failure on a one-record live log reports an error
and changes nothing. -/
theorem failed_rotation_preserves_live_witness :
    (compress_log sample_dt true false false sample_state).1.live = sample_state.live ∧
    (compress_log sample_dt true false false sample_state).2 ≠ none :=
  failed_rotation_preserves_live sample_dt true false false sample_state (Or.inl rfl)

/-! ## C4 — state after a successful rotation -/

/-- C4 counterexample: a successful rotation of a one-record live log ends
with the live log NOT empty — `compress_log`'s last step appends the
rotation notice after truncating, so the claim that the live log is empty
immediately after the cycle is false. -/
theorem rotation_live_not_empty_cex :
    (compress_log sample_dt false false false sample_state).2 = none ∧
    (compress_log sample_dt false false false sample_state).1.live ≠ [] := by
  constructor
  · rfl
  · simp [compress_log]

/-- C4 (amended): immediately after a successful rotation exactly one new
archive exists, named base log name + underscore + the `YYYYMMDD_HHMMSS`
timestamp + ".gz" and holding the prior live contents, and the live log
contains exactly one record — the notice naming the archive — rather than
being empty. -/
theorem rotation_success_spec (now : DateTime) (s : LogState) :
    (compress_log now false false false s).2 = none ∧
    (compress_log now false false false s).1.archives =
      s.archives ++ [(archive_name_at (strftime_ts now), s.live)] ∧
    (compress_log now false false false s).1.archives.length =
      s.archives.length + 1 ∧
    (compress_log now false false false s).1.live =
      [rotation_notice (archive_name_at (strftime_ts now))] ∧
    archive_name_at (strftime_ts now) = LOG_FILE ++ "_" ++ strftime_ts now ++ ".gz" := by
  refine ⟨rfl, rfl, ?_, rfl, rfl⟩
  simp [compress_log]

/-! ## C2 — order of steps in the maintenance loop -/

/-- C2 counterexample: one successful iteration of the supervisor loop
performs rotation first, then the sleep, then the sweep — not the claimed
sleep-then-rotate-then-sweep order, and the sweep is separated from the
rotation by the full sleep. -/
theorem loop_order_cex :
    cycle_trace CycleOutcome.ok = [Step.rotate_ok, Step.sleep, Step.sweep_ok] ∧
    cycle_trace CycleOutcome.ok ≠ [Step.sleep, Step.rotate_ok, Step.sweep_ok] := by
  decide

/-- C2 (amended): in every iteration of the maintenance loop the steps
occur in the order rotate, then sleep for the rotation period, then sweep;
over any number of successful cycles the trace is exactly that triple
repeated, so the retention sweep runs exactly once per rotation cycle —
one full period after that cycle's rotation, not immediately after it. -/
theorem loop_order_spec (n : Nat) :
    loop_trace (List.replicate n CycleOutcome.ok) =
      (List.replicate n [Step.rotate_ok, Step.sleep, Step.sweep_ok]).flatten ∧
    (loop_trace (List.replicate n CycleOutcome.ok)).count Step.sweep_ok = n := by
  induction n with
  | zero => simp [loop_trace]
  | succ k ih =>
    obtain ⟨ih1, ih2⟩ := ih
    constructor
    · simp [List.replicate_succ, loop_trace, cycle_trace, ih1]
    · simp [List.replicate_succ, loop_trace, cycle_trace, ih2,
        List.count_append, List.count_cons]

/-! ## C3 — what a failed rotation skips -/

/-- C3 counterexample: when rotation fails, the very next loop iteration
retries rotation immediately — in the trace of a failing cycle followed by
a successful one, the second rotation attempt happens before any sleep, so
the claim that rotation is next attempted only after the full rotation
period is false. -/
theorem rotation_retry_cex :
    loop_trace [CycleOutcome.rotation_fails, CycleOutcome.ok] =
      [Step.rotate_fail, Step.log_error, Step.rotate_ok, Step.sleep, Step.sweep_ok] ∧
    Step.sleep ∉ (loop_trace [CycleOutcome.rotation_fails, CycleOutcome.ok]).take 3 := by
  decide

/-- C3 (amended): when compression or truncation fails, the error is
logged and the remainder of that cycle — the sleep and the retention
sweep — is skipped, the failure never terminates the loop, and the next
rotation attempt follows immediately at the top of the next iteration,
without waiting for the rotation period. -/
theorem rotation_failure_policy (cs : List CycleOutcome) :
    loop_trace (CycleOutcome.rotation_fails :: cs) =
      Step.rotate_fail :: Step.log_error :: loop_trace cs ∧
    Step.sleep ∉ cycle_trace CycleOutcome.rotation_fails ∧
    Step.sweep_ok ∉ cycle_trace CycleOutcome.rotation_fails ∧
    Step.sweep_fail ∉ cycle_trace CycleOutcome.rotation_fails := by
  refine ⟨rfl, by decide, by decide, by decide⟩

/-! ## C6 — a deletion failure aborts the sweep -/

/-- C6 counterexample: two stale matching archives, removal of the first
raises; the run deletes nothing and stops with the error, so the second
matching file — which passes the deletion test — is never attempted, and
the claim that the sweep continues past a failure is false. -/
theorem sweep_abort_cex :
    (delete_old_logs_run cex_time fails_on_a [cex_old_a, cex_old_b]).1 = [] ∧
    (delete_old_logs_run cex_time fails_on_a [cex_old_a, cex_old_b]).2 =
      some (file_path_of cex_old_a.name) ∧
    should_delete cex_time cex_old_b = true ∧
    file_path_of cex_old_b.name ∉
      (delete_old_logs_run cex_time fails_on_a [cex_old_a, cex_old_b]).1 := by
  decide

/-- C6 (amended): a deletion failure aborts the sweep: if every deletable
entry before `e` is removed without error and removing `e` raises, the run
ends at `e` having deleted exactly the deletable entries before it — no
entry after `e` is visited or attempted; the raised error propagates out
of `delete_old_logs` (to the supervisor loop, which logs it). -/
theorem sweep_abort_on_failure (t : Int) (fails : String → Bool)
    (l₁ l₂ : List DirEntry) (e : DirEntry)
    (h₁ : ∀ e' ∈ l₁, should_delete t e' = true → fails e'.name = false)
    (he : should_delete t e = true) (hf : fails e.name = true) :
    delete_old_logs_run t fails (l₁ ++ e :: l₂) =
      ((l₁.filter (fun x => should_delete t x)).map (fun x => file_path_of x.name),
        some (file_path_of e.name)) := by
  induction l₁ with
  | nil => simp [delete_old_logs_run, he, hf]
  | cons a rest ih =>
    have hrest : ∀ e' ∈ rest, should_delete t e' = true → fails e'.name = false :=
      fun e' h' => h₁ e' (List.mem_cons_of_mem a h')
    by_cases ha : should_delete t a = true
    · have hok : fails a.name = false := h₁ a (List.mem_cons_self a rest) ha
      simp [delete_old_logs_run, ha, hok, ih hrest, List.filter_cons]
    · simp [delete_old_logs_run, ha, ih hrest, List.filter_cons]

/-- C6 witness: with a fresh archive listed first, then the failing stale
archive, then another stale archive, the sweep deletes nothing and stops
at the failing file. -/
theorem sweep_abort_on_failure_witness :
    delete_old_logs_run cex_time fails_on_a ([cex_young] ++ cex_old_a :: [cex_old_b]) =
      ([cex_young].filter (fun x => should_delete cex_time x) |>.map
          (fun x => file_path_of x.name),
        some (file_path_of cex_old_a.name)) :=
  sweep_abort_on_failure cex_time fails_on_a [cex_young] [cex_old_b] cex_old_a
    (by decide) (by decide) (by decide)

/-! ## C1 — a concurrent append can be lost by rotation -/

/-- C1: nothing in the code orders the observer thread's appends against
`compress_log`'s read-archive-truncate sequence (there is no lock), and in
the schedule where one of two burst appends lands between the archive
write and the truncate, that record ends up in neither the archive nor the
post-rotation live log: of N = 2 appended records only 1 survives, so the
no-loss claim fails on this interleaving. -/
theorem append_lost_in_rotation :
    record_count recA (exec_schedule lossy_schedule) = 1 ∧
    record_count recB (exec_schedule lossy_schedule) = 0 ∧
    record_count recA (exec_schedule lossy_schedule) +
      record_count recB (exec_schedule lossy_schedule) = 1 := by
  decide

end Watchdog
